import Mathlib

/-!
Shallow embedding of the keramika-bot booking core (src/database.py and
src/bot.py) and proofs about the spec's claims.

Modelling conventions:
* The SQLite `bookings` table is a `DB`: a list of rows plus the next
  AUTOINCREMENT id.  `CURRENT_TIMESTAMP` is an explicit `ts : Nat`
  parameter on write operations.
* SQLite TEXT comparison (BINARY collation) and Python string comparison
  are both lexicographic on code points; both are modelled by `strLtB`
  on `String.data`.
* `ORDER BY` is modelled by a sort with a boolean `le` comparator.
* `datetime` values are reduced to seconds-since-the-civil-epoch via the
  standard `daysFromCivil` algorithm; `total_seconds()/3600` in
  `check_reminders` becomes an exact rational (`Rat.divInt _ 3600`).
  `datetime.now()` is modelled at second resolution by `Now`.
* `bot.send_message` failures are modelled by a `deliver : Nat → Bool`
  oracle; both customer send helpers in bot.py swallow exceptions
  internally, so in the model they always return and merely record
  whether delivery succeeded.
-/

namespace Keramika

/-- Lexicographic comparison of char lists: Python `s1 < s2` and SQLite
BINARY collation on the ASCII strings this system stores. -/
def strLtB : List Char → List Char → Bool
  | [], [] => false
  | [], _ :: _ => true
  | _ :: _, [] => false
  | a :: as, b :: bs => if a < b then true else if b < a then false else strLtB as bs

/-- Python `a < b` on strings. -/
def pyStrLt (a b : String) : Bool := strLtB a.data b.data

/-- Python `a <= b` on strings (also SQLite `BETWEEN` endpoints). -/
def pyStrLe (a b : String) : Bool := !(strLtB b.data a.data)

/-- Python `str.split(c)` on a single-char separator. -/
def splitOnChar (c : Char) : List Char → List (List Char)
  | [] => [[]]
  | x :: xs =>
    if x = c then [] :: splitOnChar c xs
    else
      match splitOnChar c xs with
      | [] => [[x]]
      | g :: gs => (x :: g) :: gs

/-- Python `int(s)` for the nonnegative digit strings stored by the bot
(`DD`, `MM`, `HH`, `MM`).  Python's `int` also accepts signs and blanks,
but composed with the `datetime(...)` range validation in `hoursDiff?`
the overall skip-on-bad-input behaviour coincides. -/
def digitsToNat? (l : List Char) : Option Nat :=
  if l ≠ [] ∧ l.all (fun c => c.isDigit) then
    some (l.foldl (fun acc c => acc * 10 + (c.toNat - 48)) 0)
  else none

/-- Two-digit zero-padded rendering, as in `strftime("%d"/"%m")`. -/
def pad2 (n : Nat) : String := ⟨[Char.ofNat (48 + n / 10 % 10), Char.ofNat (48 + n % 10)]⟩

/-- One row of the `bookings` table (database.py `init_db`). -/
structure Booking where
  id : Nat
  userId : Int
  username : String
  fullName : String
  bookingType : String
  selectedDate : String
  selectedTime : String
  status : String
  adminMessageId : Option Int
  reminderDaySent : Bool
  reminderHourSent : Bool
  createdAt : Nat
  updatedAt : Nat
deriving DecidableEq, Repr

/-- The store: rows in rowid order plus the next AUTOINCREMENT id. -/
structure DB where
  bookings : List Booking
  nextId : Nat
deriving DecidableEq, Repr

/-- database.py `is_slot_available`: `SELECT COUNT(*) ... WHERE
selected_date = ? AND selected_time = ? AND status IN
('pending','confirmed')`, then `count == 0`. -/
def is_slot_available (db : DB) (date time : String) : Bool :=
  (db.bookings.countP (fun b =>
    b.selectedDate == date && b.selectedTime == time &&
    (b.status == "pending" || b.status == "confirmed"))) == 0

/-- database.py `create_booking`: INSERT with status `'pending'`,
returning `lastrowid`. -/
def create_booking (db : DB) (ts : Nat) (userId : Int)
    (username fullName bookingType date time : String) : Nat × DB :=
  let b : Booking := {
    id := db.nextId, userId := userId, username := username,
    fullName := fullName, bookingType := bookingType,
    selectedDate := date, selectedTime := time, status := "pending",
    adminMessageId := none, reminderDaySent := false,
    reminderHourSent := false, createdAt := ts, updatedAt := ts }
  (db.nextId, { bookings := db.bookings ++ [b], nextId := db.nextId + 1 })

/-- database.py `get_booking`: `SELECT * WHERE id = ?`. -/
def get_booking (db : DB) (id : Nat) : Option Booking :=
  db.bookings.find? (fun b => b.id == id)

/-- database.py `update_booking_status`; the `if admin_message_id:`
truthiness test makes `None` and `0` take the branch without
`admin_message_id`. -/
def update_booking_status (db : DB) (ts : Nat) (id : Nat) (status : String)
    (adminMessageId : Option Int) : DB :=
  let truthy := match adminMessageId with
    | some m => m != 0
    | none => false
  { db with bookings := db.bookings.map (fun b =>
      if b.id == id then
        (if truthy then
          { b with status := status, adminMessageId := adminMessageId, updatedAt := ts }
        else
          { b with status := status, updatedAt := ts })
      else b) }

/-- database.py `delete_booking`: DELETE by id, returning `rowcount > 0`. -/
def delete_booking (db : DB) (id : Nat) : Bool × DB :=
  (db.bookings.any (fun b => b.id == id),
   { db with bookings := db.bookings.filter (fun b => !(b.id == id)) })

/-- database.py `mark_reminder_sent`: sets the matching flag column for
kind `'day'` or `'hour'`; any other kind runs no UPDATE. -/
def mark_reminder_sent (db : DB) (id : Nat) (kind : String) : DB :=
  if kind == "day" then
    { db with bookings := db.bookings.map (fun b =>
        if b.id == id then { b with reminderDaySent := true } else b) }
  else if kind == "hour" then
    { db with bookings := db.bookings.map (fun b =>
        if b.id == id then { b with reminderHourSent := true } else b) }
  else db

/-- Insertion step of the `ORDER BY` model. -/
def insertLe {α : Type} (le : α → α → Bool) (a : α) : List α → List α
  | [] => [a]
  | b :: bs => if le a b then a :: b :: bs else b :: insertLe le a bs

/-- Sort model for SQL `ORDER BY` (stable insertion sort). -/
def sortByB {α : Type} (le : α → α → Bool) : List α → List α
  | [] => []
  | a :: as => insertLe le a (sortByB le as)

/-- `ORDER BY selected_date ASC, selected_time ASC` comparator. -/
def dateTimeLe (a b : Booking) : Bool :=
  pyStrLt a.selectedDate b.selectedDate ||
  (a.selectedDate == b.selectedDate && pyStrLe a.selectedTime b.selectedTime)

/-- database.py `get_confirmed_bookings`. -/
def get_confirmed_bookings (db : DB) : List Booking :=
  sortByB dateTimeLe (db.bookings.filter (fun b => b.status == "confirmed"))

/-- The `CASE status ... END` sort key of `get_all_bookings`. -/
def statusPrio (s : String) : Nat :=
  if s == "pending" then 1
  else if s == "confirmed" then 2
  else if s == "rejected" then 3
  else 4

/-- `ORDER BY CASE status ... END, created_at DESC` comparator. -/
def allOrderLe (a b : Booking) : Bool :=
  statusPrio a.status < statusPrio b.status ||
  (statusPrio a.status == statusPrio b.status && b.createdAt ≤ a.createdAt)

/-- database.py `get_all_bookings`. -/
def get_all_bookings (db : DB) : List Booking :=
  sortByB allOrderLe db.bookings

/-- database.py `get_bookings_by_date_range`: `selected_date BETWEEN ?
AND ?` (inclusive, text comparison) and `status IN
('pending','confirmed')`, ordered by date, time. -/
def get_bookings_by_date_range (db : DB) (startDate endDate : String) : List Booking :=
  sortByB dateTimeLe (db.bookings.filter (fun b =>
    pyStrLe startDate b.selectedDate && pyStrLe b.selectedDate endDate &&
    (b.status == "pending" || b.status == "confirmed")))

/-- Gregorian leap year. -/
def isLeap (y : Nat) : Bool := y % 4 == 0 && (y % 100 != 0 || y % 400 == 0)

/-- Days in a month, as `datetime` validates them. -/
def daysInMonth (y m : Nat) : Nat :=
  if m = 2 then (if isLeap y then 29 else 28)
  else if m = 4 ∨ m = 6 ∨ m = 9 ∨ m = 11 then 30
  else 31

/-- Days since 1970-01-01 of a civil date (standard days-from-civil
algorithm, specialised to positive years). -/
def daysFromCivil (y m d : Nat) : Int :=
  let y2 := if m ≤ 2 then y - 1 else y
  let era := y2 / 400
  let yoe := y2 % 400
  let mp := (m + 9) % 12
  let doy := (153 * mp + 2) / 5 + (d - 1)
  let doe := yoe * 365 + yoe / 4 - yoe / 100 + doy
  ((era * 146097 + doe : Nat) : Int) - 719468

/-- A `datetime` reduced to seconds since the epoch. -/
def toSeconds (y mo d hh mi ss : Nat) : Int :=
  daysFromCivil y mo d * 86400 + ((hh * 3600 + mi * 60 + ss : Nat) : Int)

/-- `datetime.now()` at second resolution. -/
structure Now where
  year : Nat
  month : Nat
  day : Nat
  hour : Nat
  minute : Nat
  second : Nat
deriving DecidableEq, Repr

/-- Seconds-since-epoch of `now`. -/
def nowSeconds (n : Now) : Int :=
  toSeconds n.year n.month n.day n.hour n.minute n.second

/-- `now.strftime("%d.%m")`. -/
def currentDateStr (n : Now) : String := pad2 n.day ++ "." ++ pad2 n.month

/-- The `hours_diff` computation of bot.py `check_reminders`: split
`selected_date` on `'.'` and `selected_time` on `':'`, require exactly
two parts each, convert with `int(...)`, build
`datetime(now.year, month, day, hour, minute)` (whose constructor
validates the ranges), and return
`(booking_datetime - now).total_seconds() / 3600` as an exact rational.
`none` models the `continue` on a length mismatch as well as the
per-booking `except` swallowing `int`/`datetime` errors. -/
def hoursDiff? (now : Now) (b : Booking) : Option ℚ :=
  match splitOnChar '.' b.selectedDate.data, splitOnChar ':' b.selectedTime.data with
  | [dStr, moStr], [hStr, miStr] =>
    match digitsToNat? dStr, digitsToNat? moStr, digitsToNat? hStr, digitsToNat? miStr with
    | some d, some mo, some hh, some mi =>
      if 1 ≤ mo ∧ mo ≤ 12 ∧ 1 ≤ d ∧ d ≤ daysInMonth now.year mo ∧ hh ≤ 23 ∧ mi ≤ 59 then
        some (Rat.divInt (toSeconds now.year mo d hh mi 0 - nowSeconds now) 3600)
      else none
    | _, _, _, _ => none
  | _, _ => none

/-- Observable notification attempts of one reminder pass.  The
`delivered` flag records whether the underlying `bot.send_message`
raised; the send helpers catch that exception internally. -/
inductive Event where
  | dayReminder (id : Nat) (delivered : Bool)
  | hourReminder (id : Nat) (delivered : Bool)
  | adminReminder (id : Nat)
deriving DecidableEq, Repr

/-- The booking id an event is about. -/
def eventId : Event → Nat
  | .dayReminder i _ => i
  | .hourReminder i _ => i
  | .adminReminder i => i

/-- Notification attempts the loop body of `check_reminders` makes for
one snapshot row `b`: skip if `selected_date < current_date`; on
`hours_diff = h`, `if 23 <= h <= 25 and not day_sent` send the day
reminder, `elif 0.9 <= h <= 1.1 and not hour_sent` send the hour
reminder, and independently `if 0.9 <= h <= 1.1` call
`send_admin_reminder`. -/
def bookingEvents (now : Now) (deliver : Nat → Bool) (b : Booking) : List Event :=
  if pyStrLt b.selectedDate (currentDateStr now) then []
  else
    match hoursDiff? now b with
    | none => []
    | some h =>
      (if 23 ≤ h ∧ h ≤ 25 ∧ b.reminderDaySent = false then
        [Event.dayReminder b.id (deliver b.id)]
      else if Rat.divInt 9 10 ≤ h ∧ h ≤ Rat.divInt 11 10 ∧ b.reminderHourSent = false then
        [Event.hourReminder b.id (deliver b.id)]
      else [])
      ++ (if Rat.divInt 9 10 ≤ h ∧ h ≤ Rat.divInt 11 10 then [Event.adminReminder b.id] else [])

/-- Store mutation the loop body of `check_reminders` performs for one
snapshot row `b`: `mark_reminder_sent` exactly in the branch whose
customer reminder fired. -/
def bookingMark (now : Now) (b : Booking) (db : DB) : DB :=
  if pyStrLt b.selectedDate (currentDateStr now) then db
  else
    match hoursDiff? now b with
    | none => db
    | some h =>
      if 23 ≤ h ∧ h ≤ 25 ∧ b.reminderDaySent = false then
        mark_reminder_sent db b.id "day"
      else if Rat.divInt 9 10 ≤ h ∧ h ≤ Rat.divInt 11 10 ∧ b.reminderHourSent = false then
        mark_reminder_sent db b.id "hour"
      else db

/-- One scan tick of bot.py `check_reminders`: snapshot
`get_confirmed_bookings`, then run the loop body on each row,
accumulating store mutations and notification attempts. -/
def checkRemindersOnce (now : Now) (deliver : Nat → Bool) (db : DB) : DB × List Event :=
  (get_confirmed_bookings db).foldl
    (fun acc b => (bookingMark now b acc.1, acc.2 ++ bookingEvents now deliver b)) (db, [])

/-- What `mark_reminder_sent` does to row `x` while the loop processes
snapshot row `b` (pointwise form of `bookingMark`). -/
def markFn (now : Now) (b : Booking) (x : Booking) : Booking :=
  if pyStrLt b.selectedDate (currentDateStr now) then x
  else
    match hoursDiff? now b with
    | none => x
    | some h =>
      if 23 ≤ h ∧ h ≤ 25 ∧ b.reminderDaySent = false then
        (if x.id == b.id then { x with reminderDaySent := true } else x)
      else if Rat.divInt 9 10 ≤ h ∧ h ≤ Rat.divInt 11 10 ∧ b.reminderHourSent = false then
        (if x.id == b.id then { x with reminderHourSent := true } else x)
      else x

/-- User-visible outcome of a booking-creation handler. -/
inductive Reply where
  | parseFailure
  | slotTaken
  | badTimeFormat
  | created (id : Nat)
deriving DecidableEq, Repr

/-- Date/time extraction of bot.py `process_booking` from callback data
`date_DDMM_HH`: `parts = data.split('_')`, `day = parts[1][:2]`,
`month = parts[1][2:]`, `hour = parts[2]`, giving `f"{day}.{month}"` and
`f"{hour}:00"`.  `none` models the `IndexError` that the handler's
`except` turns into a generic error answer. -/
def parseDateCb (cd : String) : Option (String × String) :=
  match splitOnChar '_' cd.data with
  | _ :: p1 :: p2 :: _ => some (⟨p1.take 2 ++ '.' :: p1.drop 2⟩, ⟨p2 ++ [':', '0', '0']⟩)
  | _ => none

/-- bot.py `process_booking` (customer flow), store effects and reply:
on an unavailable slot answer "Это время уже занято!" and return without
touching the store; otherwise `create_booking`. -/
def process_booking (db : DB) (ts : Nat) (userId : Int)
    (username fullName bookingType : String) (cd : String) : DB × Reply :=
  match parseDateCb cd with
  | none => (db, Reply.parseFailure)
  | some (d, t) =>
    if !(is_slot_available db d t) then (db, Reply.slotTaken)
    else
      let r := create_booking db ts userId username fullName bookingType d t
      (r.2, Reply.created r.1)

/-- bot.py `process_admin_time` (admin manual-entry flow), store effects
and reply: length-5 `HH:MM` format check, then the availability check
answering "Слот ... уже занят!" with no store change, otherwise
`create_booking` immediately followed by
`update_booking_status(..., 'confirmed')`. -/
def process_admin_time (db : DB) (ts : Nat) (userId : Int)
    (username fullName bookingType selectedDate : String) (timeStr : String) : DB × Reply :=
  if !(timeStr.data.length == 5 && timeStr.data.get? 2 == some ':') then
    (db, Reply.badTimeFormat)
  else if !(is_slot_available db selectedDate timeStr) then (db, Reply.slotTaken)
  else
    let r := create_booking db ts userId username fullName bookingType selectedDate timeStr
    (update_booking_status r.2 ts r.1 "confirmed" none, Reply.created r.1)

def dbW10 : DB :=
  { bookings := [{
      id := 1, userId := 10, username := "u", fullName := "f",
      bookingType := "individual", selectedDate := "15.06", selectedTime := "18:00",
      status := "pending", adminMessageId := none, reminderDaySent := false,
      reminderHourSent := false, createdAt := 0, updatedAt := 0 }],
    nextId := 2 }

/-! ## Claim C8: list-all ordering scenario -/

def dbC8a : DB := (create_booking { bookings := [], nextId := 1 } 0 10 "u1" "f1" "individual" "01.06" "10:00").2

def dbC8b : DB := update_booking_status dbC8a 1 1 "rejected" none

def dbC8c : DB := (create_booking dbC8b 2 20 "u2" "f2" "paired" "02.06" "12:00").2

def dbC8d : DB := (create_booking dbC8c 3 30 "u3" "f3" "group" "03.06" "14:00").2

def dbC8e : DB := update_booking_status dbC8d 4 3 "confirmed" none

def dbW1 : DB :=
  { bookings := [{
      id := 1, userId := 10, username := "u", fullName := "f",
      bookingType := "individual", selectedDate := "20.06", selectedTime := "10:00",
      status := "confirmed", adminMessageId := none, reminderDaySent := false,
      reminderHourSent := false, createdAt := 0, updatedAt := 0 }],
    nextId := 2 }

/-- All `Booking` fields except the two reminder flags agree. -/
def sameCore (a b : Booking) : Prop :=
  a.id = b.id ∧ a.userId = b.userId ∧ a.username = b.username ∧ a.fullName = b.fullName
  ∧ a.bookingType = b.bookingType ∧ a.selectedDate = b.selectedDate
  ∧ a.selectedTime = b.selectedTime ∧ a.status = b.status
  ∧ a.adminMessageId = b.adminMessageId ∧ a.createdAt = b.createdAt
  ∧ a.updatedAt = b.updatedAt

def bkC5 : Booking :=
  { id := 1, userId := 100, username := "u", fullName := "f",
    bookingType := "individual", selectedDate := "14.06", selectedTime := "12:00",
    status := "confirmed", adminMessageId := none, reminderDaySent := false,
    reminderHourSent := false, createdAt := 0, updatedAt := 0 }

def dbC5 : DB := { bookings := [bkC5], nextId := 2 }

def nowC5 : Now := { year := 2025, month := 6, day := 15, hour := 12, minute := 0, second := 0 }

/-! ## Claim C3: a failed customer send is still marked as sent -/

def bkC3a : Booking :=
  { id := 1, userId := 100, username := "u1", fullName := "f1",
    bookingType := "individual", selectedDate := "16.06", selectedTime := "12:00",
    status := "confirmed", adminMessageId := none, reminderDaySent := false,
    reminderHourSent := false, createdAt := 0, updatedAt := 0 }

def bkC3b : Booking :=
  { id := 2, userId := 200, username := "u2", fullName := "f2",
    bookingType := "paired", selectedDate := "16.06", selectedTime := "13:00",
    status := "confirmed", adminMessageId := none, reminderDaySent := false,
    reminderHourSent := false, createdAt := 1, updatedAt := 1 }

def dbC3 : DB := { bookings := [bkC3a, bkC3b], nextId := 3 }

def nowC3 : Now := { year := 2025, month := 6, day := 15, hour := 12, minute := 0, second := 0 }

/-- Forget whether a customer notification was actually delivered. -/
def stripOk : Event → Event
  | .dayReminder i _ => .dayReminder i true
  | .hourReminder i _ => .hourReminder i true
  | .adminReminder i => .adminReminder i

/-! ## Claim C2: the reminder tick scenario -/

def bkC2 : Booking :=
  { id := 1, userId := 100, username := "u", fullName := "f",
    bookingType := "individual", selectedDate := "16.06", selectedTime := "12:00",
    status := "confirmed", adminMessageId := none, reminderDaySent := false,
    reminderHourSent := false, createdAt := 0, updatedAt := 0 }

def dbC2 : DB := { bookings := [bkC2], nextId := 2 }

def tickA : DB × List Event :=
  checkRemindersOnce { year := 2025, month := 6, day := 15, hour := 11, minute := 0, second := 0 }
    (fun _ => true) dbC2

def tickB : DB × List Event :=
  checkRemindersOnce { year := 2025, month := 6, day := 15, hour := 12, minute := 0, second := 0 }
    (fun _ => true) tickA.1

def tickC : DB × List Event :=
  checkRemindersOnce { year := 2025, month := 6, day := 15, hour := 12, minute := 30, second := 0 }
    (fun _ => true) tickB.1

def tickD : DB × List Event :=
  checkRemindersOnce { year := 2025, month := 6, day := 16, hour := 11, minute := 0, second := 0 }
    (fun _ => true) tickC.1

def tickE : DB × List Event :=
  checkRemindersOnce { year := 2025, month := 6, day := 16, hour := 11, minute := 3, second := 0 }
    (fun _ => true) tickD.1

def dbW7 : DB :=
  { bookings := [{
      id := 1, userId := 10, username := "u", fullName := "f",
      bookingType := "individual", selectedDate := "15.06", selectedTime := "18:00",
      status := "pending", adminMessageId := none, reminderDaySent := false,
      reminderHourSent := false, createdAt := 0, updatedAt := 0 }],
    nextId := 2 }

def bkC4 : Booking :=
  { id := 1, userId := 100, username := "u", fullName := "f",
    bookingType := "individual", selectedDate := "16.06", selectedTime := "12:00",
    status := "confirmed", adminMessageId := none, reminderDaySent := false,
    reminderHourSent := false, createdAt := 0, updatedAt := 0 }

def dbC4 : DB := { bookings := [bkC4], nextId := 2 }

def nowC4 : Now := { year := 2025, month := 6, day := 15, hour := 12, minute := 0, second := 0 }

/-! ## Basic lemmas about the store operations -/

theorem insertLe_perm {α : Type} (le : α → α → Bool) (a : α) (l : List α) :
    List.Perm (insertLe le a l) (a :: l) := by
  induction l with
  | nil => exact List.Perm.refl _
  | cons b bs ih =>
    unfold insertLe
    by_cases h : le a b = true
    · simp [h]
    · simp only [h, if_false]
      exact (List.Perm.cons b ih).trans (List.Perm.swap a b bs)

theorem sortByB_perm {α : Type} (le : α → α → Bool) (l : List α) :
    List.Perm (sortByB le l) l := by
  induction l with
  | nil => exact List.Perm.refl _
  | cons a as ih =>
    unfold sortByB
    exact (insertLe_perm le a _).trans (List.Perm.cons a ih)

theorem mem_sortByB {α : Type} (le : α → α → Bool) (l : List α) (a : α) :
    a ∈ sortByB le l ↔ a ∈ l :=
  (sortByB_perm le l).mem_iff

theorem mem_get_confirmed_bookings (db : DB) (b : Booking) :
    b ∈ get_confirmed_bookings db ↔ b ∈ db.bookings ∧ b.status = "confirmed" := by
  unfold get_confirmed_bookings
  rw [mem_sortByB, List.mem_filter]
  simp

/-- Claim C10: `get_bookings_by_date_range` filters on
`status IN ('pending','confirmed')`, so every returned row is pending or
confirmed and a rejected row inside the range is never returned. -/
theorem date_range_status_filter (db : DB) (s e : String) (b : Booking)
    (hmem : b ∈ get_bookings_by_date_range db s e) :
    (b.status = "pending" ∨ b.status = "confirmed") ∧ ¬b.status = "rejected" := by
  unfold get_bookings_by_date_range at hmem
  rw [mem_sortByB, List.mem_filter] at hmem
  have h := hmem.2
  simp only [Bool.and_eq_true, Bool.or_eq_true, beq_iff_eq] at h
  refine ⟨h.2, ?_⟩
  rcases h.2 with h' | h' <;> rw [h'] <;> decide

/-- Witness for C10 at a concrete store: the pending booking on 15.06 is
inside the range 01.06–30.06 and the theorem applies to it. -/
theorem date_range_status_filter_witness :
    (dbW10.bookings.get ⟨0, by decide⟩) ∈ get_bookings_by_date_range dbW10 "01.06" "30.06"
    ∧ ((dbW10.bookings.get ⟨0, by decide⟩).status = "pending"
        ∨ (dbW10.bookings.get ⟨0, by decide⟩).status = "confirmed")
    ∧ ¬(dbW10.bookings.get ⟨0, by decide⟩).status = "rejected" :=
  ⟨by decide, date_range_status_filter dbW10 "01.06" "30.06" _ (by decide)⟩

theorem map_idem {α : Type} (f : α → α) (hf : ∀ a, f (f a) = f a) (l : List α) :
    (l.map f).map f = l.map f := by
  rw [List.map_map]
  exact List.map_congr_left (fun a _ => hf a)

/-- Claim C9: `mark_reminder_sent` is idempotent — for any id and any
kind (in particular `'day'` and `'hour'`), marking twice equals marking
once; re-setting an already-set flag changes nothing. -/
theorem mark_reminder_sent_idempotent (db : DB) (id : Nat) (kind : String) :
    mark_reminder_sent (mark_reminder_sent db id kind) id kind
      = mark_reminder_sent db id kind := by
  unfold mark_reminder_sent
  split_ifs
  · dsimp only
    rw [map_idem _ (fun a => by cases ha : (a.id == id) <;> simp [ha])]
  · dsimp only
    rw [map_idem _ (fun a => by cases ha : (a.id == id) <;> simp [ha])]
  · rfl

/-- Claim C8: on three bookings inserted with statuses rejected,
pending, confirmed (in that order), `get_all_bookings` returns them
ordered pending, confirmed, rejected. -/
theorem list_all_order_scenario :
    dbC8e.bookings.map Booking.status = ["rejected", "pending", "confirmed"]
    ∧ (get_all_bookings dbC8e).map Booking.id = [2, 3, 1]
    ∧ (get_all_bookings dbC8e).map Booking.status
        = ["pending", "confirmed", "rejected"] := by decide

/-! ## Claim C1: slot availability characterises occupancy -/

/-- Claim C1: `is_slot_available` is true iff no pending/confirmed
booking occupies the slot; after `create_booking` the slot is
unavailable; rejecting or deleting that booking restores exactly the
availability the store had before the creation (so the slot becomes free
again unless another pending/confirmed booking occupies it). -/
theorem slot_availability_characterization
    (db : DB) (d t : String) (ts ts2 : Nat) (uid : Int) (un fn bt : String)
    (hid : ∀ b ∈ db.bookings, b.id < db.nextId) :
    (is_slot_available db d t = true ↔
      ∀ b ∈ db.bookings,
        ¬(b.selectedDate = d ∧ b.selectedTime = t ∧
          (b.status = "pending" ∨ b.status = "confirmed")))
    ∧ is_slot_available (create_booking db ts uid un fn bt d t).2 d t = false
    ∧ is_slot_available
        (update_booking_status (create_booking db ts uid un fn bt d t).2 ts2
          (create_booking db ts uid un fn bt d t).1 "rejected" none) d t
        = is_slot_available db d t
    ∧ is_slot_available
        (delete_booking (create_booking db ts uid un fn bt d t).2
          (create_booking db ts uid un fn bt d t).1).2 d t
        = is_slot_available db d t := by
  have hne : ∀ b ∈ db.bookings, (b.id == db.nextId) = false := by
    intro b hb
    have := hid b hb
    simp only [beq_eq_false_iff_ne, ne_eq]
    omega
  refine ⟨?_, ?_, ?_, ?_⟩
  · unfold is_slot_available
    rw [beq_iff_eq, List.countP_eq_zero]
    constructor
    · intro h b hb hcontra
      have := h b hb
      simp only [Bool.and_eq_true, Bool.or_eq_true, beq_iff_eq] at this
      tauto
    · intro h b hb
      have := h b hb
      simp only [Bool.and_eq_true, Bool.or_eq_true, beq_iff_eq]
      tauto
  · unfold is_slot_available create_booking
    simp [List.countP_append, List.countP_cons]
  · have hbk : (update_booking_status (create_booking db ts uid un fn bt d t).2 ts2
        (create_booking db ts uid un fn bt d t).1 "rejected" none).bookings
        = db.bookings ++ [{
            id := db.nextId, userId := uid, username := un, fullName := fn,
            bookingType := bt, selectedDate := d, selectedTime := t,
            status := "rejected", adminMessageId := none, reminderDaySent := false,
            reminderHourSent := false, createdAt := ts, updatedAt := ts2 }] := by
      unfold update_booking_status create_booking
      simp only [List.map_append]
      congr 1
      · rw [show db.bookings.map _ = db.bookings.map (fun b => b) from
          List.map_congr_left (fun b hb => by simp [hne b hb])]
        simp
      · simp
    unfold is_slot_available
    rw [hbk, List.countP_append]
    simp
  · have hbk : (delete_booking (create_booking db ts uid un fn bt d t).2
        (create_booking db ts uid un fn bt d t).1).2.bookings = db.bookings := by
      unfold delete_booking create_booking
      simp only [List.filter_append]
      rw [List.filter_eq_self.2 (fun b hb => by simp [hne b hb]),
        show List.filter _ [_] = [] from by simp]
      simp
    unfold is_slot_available
    rw [hbk]

/-- Witness for C1 at a concrete store with one unrelated confirmed
booking. -/
theorem slot_availability_characterization_witness :
    (∀ b ∈ dbW1.bookings, b.id < dbW1.nextId)
    ∧ ((is_slot_available dbW1 "20.06" "12:00" = true ↔
        ∀ b ∈ dbW1.bookings,
          ¬(b.selectedDate = "20.06" ∧ b.selectedTime = "12:00" ∧
            (b.status = "pending" ∨ b.status = "confirmed")))
      ∧ is_slot_available (create_booking dbW1 5 77 "u" "f" "individual" "20.06" "12:00").2 "20.06" "12:00" = false
      ∧ is_slot_available
          (update_booking_status (create_booking dbW1 5 77 "u" "f" "individual" "20.06" "12:00").2 6
            (create_booking dbW1 5 77 "u" "f" "individual" "20.06" "12:00").1 "rejected" none) "20.06" "12:00"
          = is_slot_available dbW1 "20.06" "12:00"
      ∧ is_slot_available
          (delete_booking (create_booking dbW1 5 77 "u" "f" "individual" "20.06" "12:00").2
            (create_booking dbW1 5 77 "u" "f" "individual" "20.06" "12:00").1).2 "20.06" "12:00"
          = is_slot_available dbW1 "20.06" "12:00") :=
  ⟨by decide,
   slot_availability_characterization dbW1 "20.06" "12:00" 5 6 77 "u" "f" "individual" (by decide)⟩

/-! ## Decomposition of the reminder pass -/

theorem checkReminders_fst (now : Now) (deliver : Nat → Bool) (db : DB) :
    (checkRemindersOnce now deliver db).1
      = (get_confirmed_bookings db).foldl (fun d b => bookingMark now b d) db := by
  unfold checkRemindersOnce
  generalize get_confirmed_bookings db = l
  suffices h : ∀ (l : List Booking) (d : DB) (evs : List Event),
      (l.foldl (fun acc b => (bookingMark now b acc.1, acc.2 ++ bookingEvents now deliver b)) (d, evs)).1
        = l.foldl (fun d b => bookingMark now b d) d from h l db []
  intro l
  induction l with
  | nil => intro d evs; rfl
  | cons b bs ih => intro d evs; exact ih _ _

theorem checkReminders_snd (now : Now) (deliver : Nat → Bool) (db : DB) :
    (checkRemindersOnce now deliver db).2
      = (get_confirmed_bookings db).flatMap (bookingEvents now deliver) := by
  unfold checkRemindersOnce
  generalize get_confirmed_bookings db = l
  suffices h : ∀ (l : List Booking) (d : DB) (evs : List Event),
      (l.foldl (fun acc b => (bookingMark now b acc.1, acc.2 ++ bookingEvents now deliver b)) (d, evs)).2
        = evs ++ l.flatMap (bookingEvents now deliver) by
    rw [h l db []]; rfl
  intro l
  induction l with
  | nil => intro d evs; simp
  | cons b bs ih =>
    intro d evs
    simp only [List.foldl_cons, List.flatMap_cons, ih, List.append_assoc]

theorem bookingMark_bookings (now : Now) (b : Booking) (db : DB) :
    (bookingMark now b db).bookings = db.bookings.map (markFn now b)
    ∧ (bookingMark now b db).nextId = db.nextId := by
  unfold bookingMark markFn
  cases hskip : pyStrLt b.selectedDate (currentDateStr now)
  · simp only [hskip, Bool.false_eq_true, if_false]
    cases hH : hoursDiff? now b with
    | none => simp
    | some h =>
      by_cases hday : 23 ≤ h ∧ h ≤ 25 ∧ b.reminderDaySent = false
      · simp only [hday, if_true]
        unfold mark_reminder_sent
        simp
      · by_cases hhour : Rat.divInt 9 10 ≤ h ∧ h ≤ Rat.divInt 11 10 ∧ b.reminderHourSent = false
        · simp only [hday, hhour, if_true, if_false]
          unfold mark_reminder_sent
          simp
        · simp [hday, hhour]
  · simp [hskip]

theorem foldl_mark_bookings (now : Now) (l : List Booking) :
    ∀ db : DB,
      ((l.foldl (fun d b => bookingMark now b d) db).bookings
        = db.bookings.map (fun x => l.foldl (fun x b => markFn now b x) x))
      ∧ (l.foldl (fun d b => bookingMark now b d) db).nextId = db.nextId := by
  induction l with
  | nil => intro db; simp
  | cons b bs ih =>
    intro db
    constructor
    · rw [List.foldl_cons, (ih (bookingMark now b db)).1, (bookingMark_bookings now b db).1,
        List.map_map]
      rfl
    · rw [List.foldl_cons, (ih (bookingMark now b db)).2, (bookingMark_bookings now b db).2]

/-! ## Pointwise facts about `markFn` and `bookingEvents` -/

theorem markFn_id (now : Now) (b x : Booking) : (markFn now b x).id = x.id := by
  unfold markFn
  repeat' split <;> try rfl

theorem markFn_of_ne (now : Now) (b x : Booking) (h : x.id ≠ b.id) :
    markFn now b x = x := by
  have hb : (x.id == b.id) = false := by simpa using h
  unfold markFn
  repeat' split <;> simp [hb]

theorem sameCore_refl (a : Booking) : sameCore a a :=
  ⟨rfl, rfl, rfl, rfl, rfl, rfl, rfl, rfl, rfl, rfl, rfl⟩

theorem sameCore_trans {a b c : Booking} (h1 : sameCore a b) (h2 : sameCore b c) :
    sameCore a c := by
  obtain ⟨e1, e2, e3, e4, e5, e6, e7, e8, e9, e10, e11⟩ := h1
  obtain ⟨f1, f2, f3, f4, f5, f6, f7, f8, f9, f10, f11⟩ := h2
  exact ⟨e1.trans f1, e2.trans f2, e3.trans f3, e4.trans f4, e5.trans f5, e6.trans f6,
    e7.trans f7, e8.trans f8, e9.trans f9, e10.trans f10, e11.trans f11⟩

theorem markFn_sameCore (now : Now) (b x : Booking) : sameCore x (markFn now b x) := by
  unfold markFn
  repeat' split
  all_goals exact ⟨rfl, rfl, rfl, rfl, rfl, rfl, rfl, rfl, rfl, rfl, rfl⟩

theorem foldl_markFn_sameCore (now : Now) (l : List Booking) :
    ∀ x : Booking, sameCore x (l.foldl (fun x b => markFn now b x) x) := by
  induction l with
  | nil => intro x; exact sameCore_refl x
  | cons b bs ih =>
    intro x
    exact sameCore_trans (markFn_sameCore now b x) (ih (markFn now b x))

theorem eventId_of_mem (now : Now) (deliver : Nat → Bool) (b : Booking) (e : Event)
    (h : e ∈ bookingEvents now deliver b) : eventId e = b.id := by
  unfold bookingEvents at h
  repeat' split at h
  all_goals simp_all [eventId]
  all_goals try rcases h with h | h
  all_goals try rcases h with ⟨-, h⟩
  all_goals rfl

theorem booking_unchanged_of_past (now : Now) (b x : Booking)
    (hpast : pyStrLt b.selectedDate (currentDateStr now) = true) :
    markFn now b x = x := by
  unfold markFn
  simp [hpast]

theorem foldl_markFn_fixed (now : Now) (l : List Booking) :
    ∀ x : Booking, (∀ b' ∈ l, markFn now b' x = x) →
      l.foldl (fun y b => markFn now b y) x = x := by
  induction l with
  | nil => intro x _; rfl
  | cons b bs ih =>
    intro x hx
    rw [List.foldl_cons, hx b (List.mem_cons_self _ _)]
    exact ih x (fun b' hb' => hx b' (List.mem_cons_of_mem _ hb'))

theorem snapshot_nodup (db : DB) (h : (db.bookings.map Booking.id).Nodup) :
    ((get_confirmed_bookings db).map Booking.id).Nodup := by
  unfold get_confirmed_bookings
  have h1 : ((db.bookings.filter (fun b => b.status == "confirmed")).map Booking.id).Nodup :=
    h.sublist (List.Sublist.map Booking.id (List.filter_sublist _))
  exact (((sortByB_perm dateTimeLe _).map Booking.id).nodup_iff).2 h1

theorem forall₂_sameCore_map (F : Booking → Booking) (hF : ∀ x, sameCore x (F x)) :
    ∀ l : List Booking, List.Forall₂ sameCore l (l.map F) := by
  intro l
  induction l with
  | nil => exact List.Forall₂.nil
  | cons a as ih => exact List.Forall₂.cons (hF a) ih

/-! ## Claim C6: the scan is a flag-only frame effect -/

/-- Claim C6: one scan tick never creates or deletes bookings and never
touches any field other than the two reminder flags: the id sequence is
unchanged (hence so is the set of ids and the row count), the
AUTOINCREMENT counter is unchanged, and every row is `sameCore`-related
to its old value. -/
theorem scan_frame_effect (now : Now) (deliver : Nat → Bool) (db : DB) :
    (checkRemindersOnce now deliver db).1.nextId = db.nextId
    ∧ (checkRemindersOnce now deliver db).1.bookings.map Booking.id
        = db.bookings.map Booking.id
    ∧ List.Forall₂ sameCore db.bookings (checkRemindersOnce now deliver db).1.bookings := by
  rw [checkReminders_fst]
  obtain ⟨hbk, hnext⟩ := foldl_mark_bookings now (get_confirmed_bookings db) db
  refine ⟨hnext, ?_, ?_⟩
  · rw [hbk, List.map_map]
    apply List.map_congr_left
    intro x _
    exact ((foldl_markFn_sameCore now (get_confirmed_bookings db) x).1).symm
  · rw [hbk]
    exact forall₂_sameCore_map _ (foldl_markFn_sameCore now (get_confirmed_bookings db)) _

/-! ## Claim C5: past bookings are never reminded -/

/-- Claim C5: a booking whose `selected_date` is strictly before today's
`%d.%m` string is skipped by the scan entirely: no day-, hour- or
admin-reminder event carries its id, and its row is left untouched,
regardless of its reminder flags. -/
theorem past_booking_never_reminded (now : Now) (deliver : Nat → Bool) (db : DB) (b : Booking)
    (hmem : b ∈ db.bookings)
    (hpast : pyStrLt b.selectedDate (currentDateStr now) = true)
    (hnd : (db.bookings.map Booking.id).Nodup) :
    (∀ e ∈ (checkRemindersOnce now deliver db).2, eventId e ≠ b.id)
    ∧ b ∈ (checkRemindersOnce now deliver db).1.bookings := by
  constructor
  · intro e he hid
    rw [checkReminders_snd, List.mem_flatMap] at he
    obtain ⟨b', hb', hee⟩ := he
    have hb'id : b'.id = b.id := (eventId_of_mem now deliver b' e hee).symm.trans hid
    have hb'mem : b' ∈ db.bookings := ((mem_get_confirmed_bookings db b').1 hb').1
    have hbb : b' = b := List.inj_on_of_nodup_map hnd hb'mem hmem hb'id
    subst hbb
    unfold bookingEvents at hee
    rw [hpast] at hee
    simp at hee
  · rw [checkReminders_fst]
    obtain ⟨hbk, -⟩ := foldl_mark_bookings now (get_confirmed_bookings db) db
    rw [hbk]
    have hFb : (get_confirmed_bookings db).foldl (fun x b' => markFn now b' x) b = b := by
      apply foldl_markFn_fixed
      intro b' hb'
      by_cases hbb : b' = b
      · rw [hbb]
        exact booking_unchanged_of_past now b b hpast
      · apply markFn_of_ne
        intro he
        exact hbb (List.inj_on_of_nodup_map hnd
          ((mem_get_confirmed_bookings db b').1 hb').1 hmem he.symm)
    exact List.mem_map.2 ⟨b, hmem, hFb⟩

/-- Witness for C5: a confirmed booking dated 14.06 with clear flags is
skipped entirely on a tick dated 15.06. -/
theorem past_booking_never_reminded_witness :
    pyStrLt bkC5.selectedDate (currentDateStr nowC5) = true
    ∧ ((∀ e ∈ (checkRemindersOnce nowC5 (fun _ => true) dbC5).2, eventId e ≠ bkC5.id)
       ∧ bkC5 ∈ (checkRemindersOnce nowC5 (fun _ => true) dbC5).1.bookings) :=
  ⟨by decide,
   past_booking_never_reminded nowC5 (fun _ => true) dbC5 bkC5 (by decide) (by decide) (by decide)⟩

/-- Counterexample to C3 as stated: on a tick where the day-reminder for
booking 1 fires but its delivery raises (`delivered = false`, the
exception being caught inside `send_day_reminder`), `reminder_day_sent`
is nevertheless set — a failed send IS recorded as sent.  Booking 2 in
the same pass is still processed. -/
theorem failed_send_still_marked :
    hoursDiff? nowC3 bkC3a = some 24
    ∧ (checkRemindersOnce nowC3 (fun i => !(i == 1)) dbC3).2
        = [Event.dayReminder 1 false, Event.dayReminder 2 true]
    ∧ (get_booking (checkRemindersOnce nowC3 (fun i => !(i == 1)) dbC3).1 1).map
        Booking.reminderDaySent = some true
    ∧ (get_booking (checkRemindersOnce nowC3 (fun i => !(i == 1)) dbC3).1 2).map
        Booking.reminderDaySent = some true := by decide

/-- Claim C3 (amended): because both customer send helpers catch the
delivery exception internally, the scan's store effects — including the
reminder-sent flags — and its set of attempted notifications are
completely independent of which deliveries fail; in particular a
delivery failure never prevents the remaining bookings of the pass from
being processed. -/
theorem send_failure_isolated (now : Now) (dv1 dv2 : Nat → Bool) (db : DB) :
    (checkRemindersOnce now dv1 db).1 = (checkRemindersOnce now dv2 db).1
    ∧ (checkRemindersOnce now dv1 db).2.map stripOk
        = (checkRemindersOnce now dv2 db).2.map stripOk := by
  constructor
  · rw [checkReminders_fst, checkReminders_fst]
  · rw [checkReminders_snd, checkReminders_snd]
    generalize get_confirmed_bookings db = l
    induction l with
    | nil => rfl
    | cons b bs ih =>
      simp only [List.flatMap_cons, List.map_append, ih]
      congr 1
      unfold bookingEvents
      repeat' split
      all_goals rfl

/-- Counterexample to C2 as stated: at exactly `H = 25` hours before the
booking, the day-reminder window `23 <= hours_diff <= 25` is already
satisfied (the bound is inclusive), so the first tick of the scenario
does send a reminder, contradicting "at H=25 no reminder sent". -/
theorem reminder_tick_at_25_sends :
    hoursDiff? { year := 2025, month := 6, day := 15, hour := 11, minute := 0, second := 0 } bkC2
      = some 25
    ∧ tickA.2 = [Event.dayReminder 1 true]
    ∧ tickA.2 ≠ [] := by decide

/-- Claim C2 (amended): for a confirmed booking at `H` hours away the
tick sequence is: at `H = 25` the day-reminder is sent (inclusive
window bound) and `reminder_day_sent` becomes true; at `H = 24` and
`H = 23.5` nothing further is sent (no duplicate day-reminder); at
`H = 1.0` the customer hour-reminder and the admin reminder are both
sent; at `H = 0.95` on a subsequent tick the admin reminder is sent
again (it has no sent-flag) while the customer hour-reminder is not
duplicated. -/
theorem reminder_scenario_amended :
    (hoursDiff? { year := 2025, month := 6, day := 15, hour := 11, minute := 0, second := 0 } bkC2
        = some 25
      ∧ tickA.2 = [Event.dayReminder 1 true]
      ∧ (get_booking tickA.1 1).map Booking.reminderDaySent = some true)
    ∧ (hoursDiff? { year := 2025, month := 6, day := 15, hour := 12, minute := 0, second := 0 } bkC2
        = some 24
      ∧ tickB.2 = [])
    ∧ (hoursDiff? { year := 2025, month := 6, day := 15, hour := 12, minute := 30, second := 0 } bkC2
        = some (Rat.divInt 47 2)
      ∧ tickC.2 = [])
    ∧ (hoursDiff? { year := 2025, month := 6, day := 16, hour := 11, minute := 0, second := 0 } bkC2
        = some 1
      ∧ tickD.2 = [Event.hourReminder 1 true, Event.adminReminder 1])
    ∧ (hoursDiff? { year := 2025, month := 6, day := 16, hour := 11, minute := 3, second := 0 } bkC2
        = some (Rat.divInt 19 20)
      ∧ tickE.2 = [Event.adminReminder 1]) := by decide

/-! ## Claim C7: an unavailable slot aborts both creation flows -/

/-- Claim C7: when `is_slot_available` reports the requested slot as
taken, the customer flow answers "Это время уже занято!" and the admin
manual-entry flow answers "Слот ... уже занят!", and in both flows the
store is returned unchanged: no row is inserted and no row is
modified. -/
theorem unavailable_slot_no_mutation
    (db : DB) (ts : Nat) (uid uid2 : Int) (un fn bt un2 fn2 bt2 sd cd tstr d t : String)
    (hparse : parseDateCb cd = some (d, t))
    (hunav : is_slot_available db d t = false)
    (hfmt : (tstr.data.length == 5 && tstr.data.get? 2 == some ':') = true)
    (hunav2 : is_slot_available db sd tstr = false) :
    process_booking db ts uid un fn bt cd = (db, Reply.slotTaken)
    ∧ process_admin_time db ts uid2 un2 fn2 bt2 sd tstr = (db, Reply.slotTaken) := by
  constructor
  · unfold process_booking
    rw [hparse]
    simp [hunav]
  · unfold process_admin_time
    rw [hfmt, hunav2]
    simp

/-- Witness for C7: slot 15.06 18:00 is occupied by a pending booking;
both flows report the slot as taken and leave the store unchanged. -/
theorem unavailable_slot_no_mutation_witness :
    is_slot_available dbW7 "15.06" "18:00" = false
    ∧ (process_booking dbW7 9 77 "u2" "f2" "individual" "date_1506_18" = (dbW7, Reply.slotTaken)
       ∧ process_admin_time dbW7 9 0 "manual" "m" "individual" "15.06" "18:00"
          = (dbW7, Reply.slotTaken)) :=
  ⟨by decide,
   unavailable_slot_no_mutation dbW7 9 77 0 "u2" "f2" "individual" "manual" "m" "individual"
     "15.06" "date_1506_18" "18:00" "15.06" "18:00" (by decide) (by decide) (by decide) (by decide)⟩

/-! ## Claim C4: the customer reminder windows, exactly -/

theorem day_event_iff (now : Now) (deliver : Nat → Bool) (b : Booking) (h : ℚ)
    (hdate : pyStrLt b.selectedDate (currentDateStr now) = false)
    (hH : hoursDiff? now b = some h) :
    (∃ ok, Event.dayReminder b.id ok ∈ bookingEvents now deliver b)
      ↔ (23 ≤ h ∧ h ≤ 25 ∧ b.reminderDaySent = false) := by
  unfold bookingEvents
  simp only [hdate, Bool.false_eq_true, if_false, hH]
  constructor
  · rintro ⟨ok, hm⟩
    rw [List.mem_append] at hm
    rcases hm with hm | hm
    · split_ifs at hm with h1 h2
      · exact h1
      · simp at hm
      · simp at hm
    · split_ifs at hm with h1
      · simp at hm
      · simp at hm
  · intro hc
    refine ⟨deliver b.id, ?_⟩
    rw [List.mem_append]
    left
    rw [if_pos hc]
    exact List.mem_singleton.2 rfl

theorem hour_event_iff (now : Now) (deliver : Nat → Bool) (b : Booking) (h : ℚ)
    (hdate : pyStrLt b.selectedDate (currentDateStr now) = false)
    (hH : hoursDiff? now b = some h) :
    (∃ ok, Event.hourReminder b.id ok ∈ bookingEvents now deliver b)
      ↔ (Rat.divInt 9 10 ≤ h ∧ h ≤ Rat.divInt 11 10 ∧ b.reminderHourSent = false) := by
  unfold bookingEvents
  simp only [hdate, Bool.false_eq_true, if_false, hH]
  constructor
  · rintro ⟨ok, hm⟩
    rw [List.mem_append] at hm
    rcases hm with hm | hm
    · split_ifs at hm with h1 h2
      · simp at hm
      · exact h2
      · simp at hm
    · split_ifs at hm with h1
      · simp at hm
      · simp at hm
  · intro hc
    have hnotday : ¬(23 ≤ h ∧ h ≤ 25 ∧ b.reminderDaySent = false) := by
      rintro ⟨h23, -, -⟩
      have : (23 : ℚ) ≤ Rat.divInt 11 10 := le_trans h23 hc.2.1
      revert this
      decide
    refine ⟨deliver b.id, ?_⟩
    rw [List.mem_append]
    left
    rw [if_neg hnotday, if_pos hc]
    exact List.mem_singleton.2 rfl

theorem markFn_self_flags (now : Now) (b : Booking) (h : ℚ)
    (hdate : pyStrLt b.selectedDate (currentDateStr now) = false)
    (hH : hoursDiff? now b = some h) :
    (markFn now b b).reminderDaySent
      = (b.reminderDaySent || decide (23 ≤ h ∧ h ≤ 25))
    ∧ (markFn now b b).reminderHourSent
      = (b.reminderHourSent || decide (Rat.divInt 9 10 ≤ h ∧ h ≤ Rat.divInt 11 10)) := by
  have hdisj : ¬((23 ≤ h ∧ h ≤ 25) ∧ (Rat.divInt 9 10 ≤ h ∧ h ≤ Rat.divInt 11 10)) := by
    rintro ⟨⟨h23, -⟩, ⟨-, h11⟩⟩
    have : (23 : ℚ) ≤ Rat.divInt 11 10 := le_trans h23 h11
    revert this
    decide
  unfold markFn
  simp only [hdate, Bool.false_eq_true, if_false, hH]
  by_cases hd : 23 ≤ h ∧ h ≤ 25
  · have hh : ¬(Rat.divInt 9 10 ≤ h ∧ h ≤ Rat.divInt 11 10) := fun hh0 => hdisj ⟨hd, hh0⟩
    have hhc : ¬(Rat.divInt 9 10 ≤ h ∧ h ≤ Rat.divInt 11 10 ∧ b.reminderHourSent = false) :=
      fun hc => hh ⟨hc.1, hc.2.1⟩
    cases hds : b.reminderDaySent
    · rw [if_pos ⟨hd.1, hd.2, rfl⟩]
      simp [hd.1, hd.2, hh]
    · rw [if_neg (fun hc => absurd hc.2.2 (by simp)), if_neg hhc]
      simp [hd.1, hd.2, hh, hds]
  · have hdc : ¬(23 ≤ h ∧ h ≤ 25 ∧ b.reminderDaySent = false) := fun hc => hd ⟨hc.1, hc.2.1⟩
    rw [if_neg hdc]
    by_cases hh : Rat.divInt 9 10 ≤ h ∧ h ≤ Rat.divInt 11 10
    · cases hhs : b.reminderHourSent
      · rw [if_pos ⟨hh.1, hh.2, rfl⟩]
        simp [hd, hh.1, hh.2]
      · rw [if_neg (fun hc => absurd hc.2.2 (by simp))]
        simp [hd, hh.1, hh.2, hhs]
    · have hhc : ¬(Rat.divInt 9 10 ≤ h ∧ h ≤ Rat.divInt 11 10 ∧ b.reminderHourSent = false) :=
        fun hc => hh ⟨hc.1, hc.2.1⟩
      rw [if_neg hhc]
      simp [hd, hh]

theorem foldl_markFn_eval (now : Now) (l : List Booking) :
    ∀ x : Booking, (∀ b' ∈ l, b'.id = x.id → b' = x) → (l.map Booking.id).Nodup →
      l.foldl (fun y b => markFn now b y) x = if x ∈ l then markFn now x x else x := by
  induction l with
  | nil => intro x _ _; simp
  | cons b bs ih =>
    intro x hx hnd
    rw [List.foldl_cons]
    by_cases hbx : b = x
    · subst hbx
      have hbsid : b.id ∉ bs.map Booking.id := by
        rw [List.map_cons, List.nodup_cons] at hnd
        exact hnd.1
      have habs : ∀ b' ∈ bs, markFn now b' (markFn now b b) = markFn now b b := by
        intro b' hb'
        apply markFn_of_ne
        rw [markFn_id]
        intro he
        exact hbsid (he ▸ List.mem_map_of_mem Booking.id hb')
      rw [foldl_markFn_fixed now bs _ habs, if_pos (List.mem_cons_self b bs)]
    · have hbid : b.id ≠ x.id := fun he => hbx (hx b (List.mem_cons_self b bs) he)
      rw [markFn_of_ne now b x (fun he => hbid he.symm)]
      rw [ih x (fun b' hb' he => hx b' (List.mem_cons_of_mem b hb') he)
        (by rw [List.map_cons, List.nodup_cons] at hnd; exact hnd.2)]
      have hxb : ¬x = b := fun he => hbx he.symm
      exact if_congr (List.mem_cons.trans (or_iff_right hxb)).symm rfl rfl

/-- Claim C4: on a scan tick, for a confirmed booking not dated before
today whose `hours_diff` computes to `h`, the customer day-reminder is
attempted exactly when `23 ≤ h ≤ 25` with the day flag clear, the
customer hour-reminder exactly when `0.9 ≤ h ≤ 1.1` with the hour flag
clear, and the booking's flags afterwards are the old flags OR-ed with
the respective window tests. -/
theorem reminder_windows_exact (now : Now) (deliver : Nat → Bool) (db : DB) (b : Booking) (h : ℚ)
    (hmem : b ∈ db.bookings) (hst : b.status = "confirmed")
    (hdate : pyStrLt b.selectedDate (currentDateStr now) = false)
    (hH : hoursDiff? now b = some h)
    (hnd : (db.bookings.map Booking.id).Nodup) :
    ((∃ ok, Event.dayReminder b.id ok ∈ (checkRemindersOnce now deliver db).2)
        ↔ (23 ≤ h ∧ h ≤ 25 ∧ b.reminderDaySent = false))
    ∧ ((∃ ok, Event.hourReminder b.id ok ∈ (checkRemindersOnce now deliver db).2)
        ↔ (Rat.divInt 9 10 ≤ h ∧ h ≤ Rat.divInt 11 10 ∧ b.reminderHourSent = false))
    ∧ (∃ b', b' ∈ (checkRemindersOnce now deliver db).1.bookings ∧ b'.id = b.id
        ∧ b'.reminderDaySent = (b.reminderDaySent || decide (23 ≤ h ∧ h ≤ 25))
        ∧ b'.reminderHourSent
            = (b.reminderHourSent
                || decide (Rat.divInt 9 10 ≤ h ∧ h ≤ Rat.divInt 11 10))) := by
  have hsnap : b ∈ get_confirmed_bookings db :=
    (mem_get_confirmed_bookings db b).2 ⟨hmem, hst⟩
  have hlift : ∀ e : Event, eventId e = b.id →
      (e ∈ (checkRemindersOnce now deliver db).2 ↔ e ∈ bookingEvents now deliver b) := by
    intro e hid
    rw [checkReminders_snd, List.mem_flatMap]
    constructor
    · rintro ⟨b', hb', he⟩
      have hb'id : b'.id = b.id := (eventId_of_mem now deliver b' e he).symm.trans hid
      have hbb : b' = b := List.inj_on_of_nodup_map hnd
        ((mem_get_confirmed_bookings db b').1 hb').1 hmem hb'id
      rw [hbb] at he
      exact he
    · intro he
      exact ⟨b, hsnap, he⟩
  refine ⟨?_, ?_, ?_⟩
  · constructor
    · rintro ⟨ok, hm⟩
      exact (day_event_iff now deliver b h hdate hH).1
        ⟨ok, (hlift (Event.dayReminder b.id ok) rfl).1 hm⟩
    · intro hc
      obtain ⟨ok, hm⟩ := (day_event_iff now deliver b h hdate hH).2 hc
      exact ⟨ok, (hlift (Event.dayReminder b.id ok) rfl).2 hm⟩
  · constructor
    · rintro ⟨ok, hm⟩
      exact (hour_event_iff now deliver b h hdate hH).1
        ⟨ok, (hlift (Event.hourReminder b.id ok) rfl).1 hm⟩
    · intro hc
      obtain ⟨ok, hm⟩ := (hour_event_iff now deliver b h hdate hH).2 hc
      exact ⟨ok, (hlift (Event.hourReminder b.id ok) rfl).2 hm⟩
  · rw [checkReminders_fst]
    obtain ⟨hbk, -⟩ := foldl_mark_bookings now (get_confirmed_bookings db) db
    rw [hbk]
    refine ⟨(get_confirmed_bookings db).foldl (fun y b' => markFn now b' y) b,
      List.mem_map.2 ⟨b, hmem, rfl⟩, ?_⟩
    rw [foldl_markFn_eval now (get_confirmed_bookings db) b
      (fun b' hb' he => List.inj_on_of_nodup_map hnd
        ((mem_get_confirmed_bookings db b').1 hb').1 hmem he)
      (snapshot_nodup db hnd), if_pos hsnap]
    exact ⟨markFn_id now b b, (markFn_self_flags now b h hdate hH).1,
      (markFn_self_flags now b h hdate hH).2⟩

/-- Witness for C4 at `h = 24` on a concrete one-booking store. -/
theorem reminder_windows_exact_witness :
    hoursDiff? nowC4 bkC4 = some 24
    ∧ (((∃ ok, Event.dayReminder bkC4.id ok ∈ (checkRemindersOnce nowC4 (fun _ => true) dbC4).2)
          ↔ (23 ≤ (24 : ℚ) ∧ (24 : ℚ) ≤ 25 ∧ bkC4.reminderDaySent = false))
      ∧ ((∃ ok, Event.hourReminder bkC4.id ok ∈ (checkRemindersOnce nowC4 (fun _ => true) dbC4).2)
          ↔ (Rat.divInt 9 10 ≤ (24 : ℚ) ∧ (24 : ℚ) ≤ Rat.divInt 11 10
              ∧ bkC4.reminderHourSent = false))
      ∧ (∃ b', b' ∈ (checkRemindersOnce nowC4 (fun _ => true) dbC4).1.bookings ∧ b'.id = bkC4.id
          ∧ b'.reminderDaySent = (bkC4.reminderDaySent || decide (23 ≤ (24 : ℚ) ∧ (24 : ℚ) ≤ 25))
          ∧ b'.reminderHourSent
              = (bkC4.reminderHourSent
                  || decide (Rat.divInt 9 10 ≤ (24 : ℚ) ∧ (24 : ℚ) ≤ Rat.divInt 11 10)))) :=
  ⟨by decide,
   reminder_windows_exact nowC4 (fun _ => true) dbC4 bkC4 24 (by decide) (by decide) (by decide)
     (by decide) (by decide)⟩

end Keramika
